import Mathlib

set_option autoImplicit false

/-!
Verification of the MeteoService query pipeline.

The development embeds the core of the repository in Lean:
time handling and the gap finder (src/gapfinder.py), the query manager
(src/query_manager.py), the relational store (src/database/db.py together
with the measurement schema in webhandler/database/models.py), and the
window resolution step of the workflow (src/workflow.py).

Modelling conventions:
* An instant is a number of minutes. A Python datetime is a wall-clock
  value together with an optional fixed UTC offset (`none` = naive).
  Comparison and set operations on aware datetimes use the absolute
  instant, as pandas and datetime do.
* Frequencies are strings parsed to a number of minutes; `parseFreq`
  models the integral subset of `pandas.tseries.frequencies.to_offset`
  that the providers use (`10min`, `1h`, `1D`, ...); unparsable strings
  yield `none` exactly where `to_offset` raises.
* DataFrames are lists of rows. A row records the datetime (absolute
  instant), the `station_id` entry, the optional `model` entry and the
  variable columns. A frame also records the timezone of its datetime
  values. Value cells are `Option Int` (`none` = NULL); the numeric type
  of the cells plays no role in any property below.
* Fallible code returns `Except String`; a raised exception is an
  `Except.error` carrying the message.
-/

namespace MeteoService

/-- A Python datetime: `wall` is the local wall-clock time in minutes and
`tz` the fixed UTC offset in minutes (`none` for a naive datetime). -/
structure DT where
  wall : Int
  tz : Option Int
deriving DecidableEq, Repr

/-- Absolute UTC instant of an aware datetime, in minutes since the epoch. -/
def DT.toAbs (t : DT) : Int := t.wall - t.tz.getD 0

/-- Digits-only numeral parser used by the frequency parser. -/
def parseDigits (cs : List Char) : Option Int :=
  if cs = [] then none
  else if cs.all Char.isDigit then
    some (cs.foldl (fun acc c => acc * 10 + ((c.toNat : Int) - 48)) 0)
  else none

/-- One alternative of the frequency grammar: a numeral (possibly empty,
meaning 1) followed by the given unit suffix. -/
def parseFreqSuffix (s : String) (suffix : String) (mult : Int) : Option Int :=
  let cs := s.toList
  let suf := suffix.toList
  if suf.isSuffixOf cs then
    let num := cs.take (cs.length - suf.length)
    if num = [] then some mult
    else (parseDigits num).map (fun n => mult * n)
  else none

/-- Frequency-string parser, in minutes. Models
`pandas.tseries.frequencies.to_offset` (and `pandas.Timedelta` on the same
strings) for the integral frequencies the providers use: `<n>min`, `<n>h`,
`<n>D`. Strings outside this grammar are the ones on which `to_offset`
raises, and parse to `none`. -/
def parseFreq (s : String) : Option Int :=
  (parseFreqSuffix s "min" 1).orElse (fun _ =>
    (parseFreqSuffix s "h" 60).orElse (fun _ =>
      parseFreqSuffix s "D" 1440))

/-- Floor a wall-clock value to a multiple of the frequency
(`pandas.Timestamp.floor`). -/
def floorW (d w : Int) : Int := d * (w.fdiv d)

/-- Number of points of the closed grid from `s` to `e` at step `d`. -/
def gridLen (s e d : Int) : Nat := ((e - s).fdiv d + 1).toNat

/-- The closed canonical grid from `s` to `e` at step `d`
(`pandas.date_range(s, e, freq=d, inclusive="both")`). Empty when `e < s`. -/
def gridList (s e d : Int) : List Int :=
  (List.range (gridLen s e d)).map (fun i => s + d * Int.ofNat i)

/-- The `inclusive` argument of `pandas.date_range`. -/
inductive Inclusive
  | left
  | right
  | both
deriving DecidableEq, Repr

/-- Drop the endpoints excluded by the `inclusive` convention from a grid
with aligned bounds `sA` and `eA`. -/
def applyInclusive (inc : Inclusive) (sA eA : Int) (g : List Int) : List Int :=
  match inc with
  | .both => g
  | .left => g.filter (fun t => t ≠ eA)
  | .right => g.filter (fun t => t ≠ sA)

/-- Gapfinder._build_daterange: floor both bounds to the frequency and build
the grid between them, honouring `inclusive`. The bounds share the offset
`z`; the result is the list of absolute instants of the grid. -/
def build_daterange (start stop : DT) (d : Int) (inc : Inclusive) : List Int :=
  let sA := floorW d start.wall
  let eA := floorW d stop.wall
  let z := start.tz.getD 0
  (applyInclusive inc sA eA (gridList sA eA d)).map (fun w => w - z)

/-- Insertion step of the integer sorting used to model sorted pandas
indexes. -/
def insertSorted (x : Int) : List Int → List Int
  | [] => [x]
  | y :: ys => if x ≤ y then x :: y :: ys else y :: insertSorted x ys

/-- Sort a list of instants ascending (`DatetimeIndex.sort_values`). -/
def sortInts : List Int → List Int
  | [] => []
  | x :: xs => insertSorted x (sortInts xs)

/-- Keep the first occurrence of every element (`Index.unique`). -/
def dedupKeepFirst {α : Type} [DecidableEq α] : List α → List α
  | [] => []
  | x :: xs => x :: (dedupKeepFirst xs).filter (fun y => y ≠ x)

/-- Close off runs of consecutive instants; `s` and `e` delimit the run
being built (Gapfinder.derive_datetime_gaps, main loop). -/
def gapRuns (d : Int) (s e : Int) : List Int → List (Int × Int)
  | [] => [(s, e)]
  | t :: rest => if t = e + d then gapRuns d s t rest else (s, e) :: gapRuns d t t rest

/-- Gapfinder.derive_datetime_gaps: group sorted missing instants into
maximal runs at step `d`, returned as closed `(gap_start, gap_end)` pairs.
The frequency string was already parsed by the caller; `d` is its value. -/
def derive_datetime_gaps (ts : List Int) (d : Int) : List (Int × Int) :=
  match sortInts ts with
  | [] => []
  | t :: rest => gapRuns d t t rest

/-- Steps 4-5 of the gap-finding algorithm: the part of the grid missing
from the sorted, de-duplicated existing absolute instants. -/
def missingOf (complete existingAbs : List Int) : List Int :=
  complete.filter (fun t => t ∉ dedupKeepFirst (sortInts existingAbs))

/-- Steps 6-7 of the gap-finding algorithm: group the missing instants
into runs at step `d` and keep the runs whose coverage reaches `mg`. -/
def gaps_from_existing (complete existingAbs : List Int) (d mg : Int) :
    List (Int × Int) :=
  if missingOf complete existingAbs = [] then []
  else
    (derive_datetime_gaps (missingOf complete existingAbs) d).filter
      (fun g => mg ≤ (g.2 + d) - g.1)

/-- Body of the try block of Gapfinder.find_data_gaps, after the input
checks passed and with `s` and `e` aware. Any failure inside the block is
caught and yields the full-range fallback `[(s, e)]`; in particular an
unparsable frequency or min-gap string, a zero step, or naive existing
dates without an explicit timezone all fall back. Gaps are pairs of
absolute instants. -/
def find_gaps_core (existingWall : List Int) (existingTz : Option Int)
    (s e : DT) (freq : String) (inclusive : Inclusive)
    (min_gap_duration : String) (tz : Option Int) : List (Int × Int) :=
  let fallback : List (Int × Int) := [(s.toAbs, e.toAbs)]
  match parseFreq min_gap_duration, parseFreq freq with
  | some mg, some d =>
    if d ≤ 0 then fallback   -- a zero step makes date_range raise
    else
      match build_daterange s e d inclusive with
      | [] => []
      | c0 :: cs =>
        if existingWall = [] then [(c0, (c0 :: cs).getLast (by simp))]
        else
          match existingTz, tz with
          | none, none => fallback   -- naive existing dates raise inside the try block
          | _, _ =>
            let zE := match existingTz with
              | some zE => zE
              | none => tz.getD 0    -- naive existing dates are localized with tz
            -- tz_convert to the target timezone keeps the absolute instants
            gaps_from_existing (c0 :: cs) (existingWall.map (fun w => w - zE)) d mg
  | _, _ => fallback

/-- Gapfinder.find_data_gaps. `existingWall`/`existingTz` model the existing
`DatetimeIndex` (wall values and its single optional timezone); `start` and
`stop` are the requested bounds, `freq` the provider frequency string,
`min_gap_duration` the coalescing threshold string, and `tz` the optional
explicit timezone argument. Checks before the `try` block raise
(`Except.error`); the try block itself never raises (`find_gaps_core`). -/
def find_data_gaps (existingWall : List Int) (existingTz : Option Int)
    (start stop : DT) (freq : String) (inclusive : Inclusive)
    (min_gap_duration : String) (tz : Option Int) :
    Except String (List (Int × Int)) :=
  -- the datetime-dtype and DatetimeIndex type checks hold by construction
  let se : Except String (DT × DT) :=
    if start.tz = none ∨ stop.tz = none then
      match tz with
      | none => .error "Naive start/end datetimes are not allowed without an explicit timezone"
      | some z =>
        if start.tz = none ∧ stop.tz = none then
          .ok ({ start with tz := some z }, { stop with tz := some z })
        else
          -- tz_localize on an already aware timestamp raises
          .error "TypeError: Cannot localize tz-aware Timestamp"
    else .ok (start, stop)
  match se with
  | .error m => .error m
  | .ok (s, e) =>
    if s.tz ≠ e.tz then .error "start and end must be in the same timezone"
    else if e.toAbs < s.toAbs then .error "end must be >= start"
    else .ok (find_gaps_core existingWall existingTz s e freq inclusive min_gap_duration tz)

/-! The canonical in-memory frame of the query pipeline. -/

/-- One row of a pipeline DataFrame: the datetime entry (absolute UTC
instant), the station_id entry, the model entry (`none` when the row has
no model value, in particular when the frame has no model column), and the
variable columns with their nullable cells. -/
structure Row where
  dt : Int
  sid : String
  model : Option String
  vals : List (String × Option Int)
deriving DecidableEq, Repr

/-- A DataFrame: the timezone offset of its datetime values and its rows. -/
structure Frame where
  tz : Int
  rows : List Row
deriving DecidableEq, Repr

/-- The empty DataFrame. -/
def Frame.emptyF : Frame := ⟨0, []⟩

/-- Whether the frame has a model column (some row carries a model value). -/
def Frame.hasModelColumn (f : Frame) : Bool :=
  f.rows.any (fun r => r.model.isSome)

/-- The composite key `(datetime, station_id, model)` of a row. -/
def rowKey (r : Row) : Int × String × Option String := (r.dt, r.sid, r.model)

/-- Model `df[~df.index.duplicated(keep="last")]`: keep, for every key, only
its last occurrence, preserving positions otherwise. -/
def dedupKeepLast : List Row → List Row
  | [] => []
  | r :: rest =>
    if rest.any (fun x => rowKey x = rowKey r) then dedupKeepLast rest
    else r :: dedupKeepLast rest

/-- Model `drop_duplicates(subset=["datetime", "station_id", "model"])`:
keep the first occurrence of every key. -/
def dropDupKeepFirst : List Row → List Row
  | [] => []
  | r :: rest => r :: (dropDupKeepFirst rest).filter (fun x => rowKey x ≠ rowKey r)

/-- Insertion step for sorting rows ascending by datetime. -/
def insertByDt (r : Row) : List Row → List Row
  | [] => [r]
  | x :: xs => if r.dt < x.dt then r :: x :: xs else x :: insertByDt r xs

/-- Sort rows by their datetime (`sort_values("datetime")`). -/
def sortRowsByDt : List Row → List Row
  | [] => []
  | r :: rest => insertByDt r (sortRowsByDt rest)

/-- Strict order on optional model entries (missing sorts first). -/
def optStrLt (a b : Option String) : Bool :=
  match a, b with
  | none, none => false
  | none, some _ => true
  | some _, none => false
  | some x, some y => decide (x < y)

/-- Strict lexicographic order on the composite row key. -/
def rowKeyLt (a b : Row) : Bool :=
  if a.dt ≠ b.dt then decide (a.dt < b.dt)
  else if a.sid ≠ b.sid then decide (a.sid < b.sid)
  else optStrLt a.model b.model

/-- Insertion step for sorting rows by their composite key. -/
def insertByKey (r : Row) : List Row → List Row
  | [] => [r]
  | x :: xs => if rowKeyLt r x then r :: x :: xs else x :: insertByKey r xs

/-- Sort rows by the `(datetime, station_id, model)` index (`sort_index`). -/
def sortRowsByKey : List Row → List Row
  | [] => []
  | r :: rest => insertByKey r (sortRowsByKey rest)

/-- Union of the variable column names of a list of rows, in order of first
appearance. -/
def colsOfRows (rows : List Row) : List String :=
  dedupKeepFirst (rows.flatMap (fun r => r.vals.map Prod.fst))

/-! QueryManager (src/query_manager.py). -/

/-- Static descriptor of a provider handler as the query manager sees it:
the frequency string and the inclusion convention. -/
structure Adapter where
  freq : String
  inclusive : Inclusive
deriving Repr

/-- The result of the upstream call made by one fetch task:
an error models a raised exception, `Option Frame` models the value of
`provider_handler.run` (which may be `None`). Arguments: station_id,
extended gap start, extended gap end, models. -/
abbrev FetchFn := String → Int → Int → Option (List String) → Except String (Option Frame)

/-- The shape of the injected cache read of `get_data`, keyed by the
rounded UTC range: what `db.query_data` would return were its call site
well-formed. The call site is not (see `db_query_data_call` below), so the
value is never consulted. -/
abbrev QueryFn := Int → Int → Frame

/-- QueryManager._validate_query_times. `now` is the absolute current
instant (comparison of aware datetimes is absolute, so converting `now`
into the timezone of `start_time` does not change it). -/
def validate_query_times (start_time end_time : DT) (now : Int) : Except String Unit :=
  if start_time.tz = none then .error "start_time must be timezone-aware"
  else if end_time.tz = none then .error "end_time must be timezone-aware"
  else if start_time.tz ≠ end_time.tz then .error "start_time and end_time must have the same timezone"
  else if start_time.toAbs > end_time.toAbs then .error "start_time must be before end_time"
  else if start_time.toAbs > now then .error "start_time must be in the past"
  else .ok ()

/-- QueryManager._round_range_to_freq on UTC instants: floor both bounds to
the frequency and cap the end at the floored current instant. -/
def round_range_to_freq (s e d now : Int) : Int × Int :=
  let sr := floorW d s
  let er := floorW d e
  let nf := floorW d now
  (sr, if er > nf then nf else er)

/-- QueryManager._create_fetch_task. Extends the gap bounds by one
frequency step to compensate the provider inclusion convention, calls the
provider, and catches any exception, in which case the task yields no
frame. Returns the provider result together with the original gap. -/
def create_fetch_task (fetch : FetchFn) (inc : Inclusive) (d : Int)
    (station_id : String) (g1 g2 : Int) (isFirst isLast : Bool)
    (models : Option (List String)) : Option Frame × Int × Int :=
  let g2e := if inc = Inclusive.left ∧ isLast = true then g2 + d else g2
  let g1e := if inc = Inclusive.right ∧ isFirst = true then g1 - d else g1
  match fetch station_id g1e g2e models with
  | .error _ => (none, g1, g2)
  | .ok r => (r, g1, g2)

/-- Modelled from the spec: the helper `reindex_group` is imported in
src/query_manager.py from src/utils.py but is not defined anywhere under
the sources. Per the spec (section 4.4 step 8), each `(station_id, model)`
group is reindexed to the canonical grid of the gap so that every expected
instant is present, missing instants becoming rows with every variable
column NULL. -/
def reindex_group (grid : List Int) (sid : String) (model : Option String)
    (cols : List String) (grows : List Row) : List Row :=
  grid.map (fun t =>
    match grows.find? (fun r => r.dt = t) with
    | some r => r
    | none => ⟨t, sid, model, cols.map (fun c => (c, none))⟩)

/-- The explicit gap-marker rows emitted when a fetch returned nothing:
one row per grid instant and requested model (or the empty-string model),
with the station_id set and every known variable column NULL. The model
column is created first and then, like every column named in
`all_variables`, overwritten with NULL if `"model"` is itself listed
there. -/
def placeholderRows (sid : String) (gap_index : List Int)
    (all_variables : List String) (models : Option (List String)) : List Row :=
  (models.getD [""]).flatMap (fun m =>
    gap_index.map (fun t =>
      { dt := t, sid := sid
        model := if "model" ∈ all_variables then none else some m
        vals := (all_variables.filter (fun c => c ≠ "model")).map (fun c => (c, none)) }))

/-- Add every expected variable column that the provider frame does not
already have, as NULL (the model column lives in the `model` field of
`Row`). -/
def addMissingVariables (all_variables : List String) (rows : List Row) : List Row :=
  let cols := colsOfRows rows
  let missing := all_variables.filter (fun c => c ∉ cols ∧ c ≠ "model")
  rows.map (fun r => { r with vals := r.vals ++ missing.map (fun c => (c, none)) })

/-- Processing of one completed fetch task inside
QueryManager._fetch_missing_data: build the canonical grid of the gap,
emit gap markers when the provider returned nothing, otherwise
de-duplicate, reindex each `(station_id, model)` group to the grid and add
missing expected variable columns. A raised exception inside this
processing (for instance the KeyError on the missing model column) is
caught and the task contributes nothing. -/
def process_task (d : Int) (station_id : String) (all_variables : List String)
    (models : Option (List String)) (res : Option Frame × Int × Int) : List Row :=
  let gap_index := gridList res.2.1 res.2.2 d
  let isEmptyResult := match res.1 with
    | none => true
    | some f => f.rows = []
  if isEmptyResult then
    if all_variables ≠ [] ∧ gap_index ≠ [] then
      placeholderRows station_id gap_index all_variables models
    else []
  else
    match res.1 with
    | none => []
    | some f =>
      if f.hasModelColumn = false then []   -- KeyError on the model column; caught, the gap is dropped
      else
        let r1 := dropDupKeepFirst f.rows
        -- groupby over the (station_id, model) index levels drops rows
        -- whose model entry is missing
        let r2 := r1.filter (fun r => r.model.isSome)
        let blocks := (dedupKeepFirst (r2.map (fun r => (r.sid, r.model)))).flatMap (fun k =>
          let grows := r2.filter (fun r => r.sid = k.1 ∧ r.model = k.2)
          reindex_group gap_index k.1 k.2 (colsOfRows grows) grows)
        addMissingVariables all_variables blocks

/-- QueryManager._fetch_missing_data: schedule one fetch task per valid
gap (gaps with a missing bound or with `gap_start >= gap_end` are skipped
with a warning), process every completed task, concatenate the surviving
frames and sort by datetime. Tasks complete in any order; the processing
order does not affect any property proved below, and is taken to be the
creation order. -/
def fetch_missing_data (ad : Adapter) (fetch : FetchFn) (station_id : String)
    (gaps : List (Option Int × Option Int)) (all_variables : List String)
    (models : Option (List String)) : Frame :=
  if gaps = [] then Frame.emptyF else
  match parseFreq ad.freq with
  | none => Frame.emptyF   -- date_range raises in every task processing; all are caught and skipped
  | some d =>
    if d ≤ 0 then Frame.emptyF
    else
      let n := gaps.length
      let tasks := gaps.enum.filterMap (fun ig =>
        match ig.2 with
        | (some g1, some g2) =>
          if g1 ≥ g2 then none
          else some (create_fetch_task fetch ad.inclusive d station_id g1 g2
            (ig.1 = 0) (ig.1 = n - 1) models)
        | _ => none)
      let all_rows := (tasks.map (process_task d station_id all_variables models)).flatten
      if all_rows = [] then Frame.emptyF
      else ⟨0, sortRowsByDt all_rows⟩

/-- QueryManager._combine_existing_and_new: convert the datetimes of the
new frame to the target timezone (instants preserved), index both frames
by `(datetime, station_id, model)` — which raises a KeyError when the
cached frame has no model column — concatenate with the new frame last,
and keep the last occurrence of every duplicated key. -/
def combine_existing_and_new (existing new_data : Frame) (targetTz : Int) :
    Except String Frame :=
  let newIdx := sortRowsByKey new_data.rows
  if existing.rows = [] then .ok ⟨targetTz, newIdx⟩
  else if existing.hasModelColumn then
    .ok ⟨targetTz, dedupKeepLast (sortRowsByKey existing.rows ++ newIdx)⟩
  else .error "KeyError: model"

/-- The columns of a frame other than station_id and datetime, as
`get_data` computes `all_variables` from the cached frame. Note that this
set does not exclude a model column. -/
def frameValueColumns (f : Frame) : List String :=
  (if f.hasModelColumn then ["model"] else []) ++ colsOfRows f.rows

/-- Convert the index of a non-empty frame to the given timezone; an empty
frame is returned unchanged (`get_data` guards the conversion with
`if not existing_data.empty`). -/
def tzConvertIfNonempty (f : Frame) (z : Int) : Frame :=
  if f.rows = [] then f else { f with tz := z }

/-- The message of the NotImplementedError raised for a variables filter. -/
def notImplementedVariablesMsg : String :=
  "NotImplementedError: Filtering by variables in get_data not implemented yet."

/-- The message of the NotImplementedError raised for multiple models. -/
def notImplementedModelsMsg : String :=
  "NotImplementedError: Only a single model is supported for now."

/-- The TypeError message of the cache read of get_data: the call site
passes the keyword argument weather_models, which MeteoDB.query_data does
not declare. -/
def typeErrorWeatherModels : String :=
  "TypeError: query_data() got an unexpected keyword argument weather_models"

/-- The cache read of get_data (query_manager.py line 200). The call
passes the keyword argument weather_models to db.query_data, but
MeteoDB.query_data (src/database/db.py line 55) declares no such
parameter and no keyword catch-all, so Python raises the TypeError before
the query body runs — for every database state and every argument value.
The injected read `db` stands for what the query would return were the
call well-formed; it is never consulted. -/
def db_query_data_call (_db : QueryFn) (_s _e : Int) : Except String Frame :=
  Except.error typeErrorWeatherModels

/-- QueryManager.get_data. The injected dependencies are the cache read
(`db`, consumed by `db_query_data_call`, whose call site raises) and the
provider call (`fetch`); `now` is the current absolute instant. Returns
the pair (combined frame, pending frame) or the raised error; every
execution that reaches the cache read returns the weather_models
TypeError, so the code from the gap finding on is unreachable (it is kept
to mirror the source). The `station_id` string coercion is a no-op here,
and `str_to_list` is the identity on an optional list of model names. -/
def get_data (db : QueryFn) (ad : Adapter) (fetch : FetchFn)
    (station_id : String) (start_time end_time : DT) (now : Int)
    (variablesArg : Option (List String)) (models : Option (List String)) :
    Except String (Frame × Frame) :=
  if variablesArg.isSome then .error notImplementedVariablesMsg
  else match validate_query_times start_time end_time now with
  | .error m => .error m
  | .ok _ =>
    if (models.getD []).length > 1 then .error notImplementedModelsMsg
    else
      let origTz := start_time.tz.getD 0
      match parseFreq ad.freq with
      | none => .error "ValueError: invalid frequency"  -- Timestamp.floor raises on a bad frequency
      | some d =>
        if d ≤ 0 then .error "ValueError: invalid frequency"
        else
          let r := round_range_to_freq start_time.toAbs end_time.toAbs d now
          if r.1 ≥ r.2 then .ok (Frame.emptyF, Frame.emptyF)
          else
            match db_query_data_call db r.1 r.2 with
            | .error m => .error m
            | .ok existing =>
              -- the DatetimeIndex of the cached frame; an empty frame
              -- contributes an empty, timezone-naive index
              let existingWall := existing.rows.map (fun x => x.dt + existing.tz)
              let existingTz : Option Int :=
                if existing.rows = [] then none else some existing.tz
              match find_data_gaps existingWall existingTz ⟨r.1, some 0⟩ ⟨r.2, some 0⟩
                  ad.freq Inclusive.both "30min" none with
              | .error m => .error m
              | .ok gaps =>
                if gaps = [] then .ok (tzConvertIfNonempty existing origTz, Frame.emptyF)
                else
                  let all_variables :=
                    if existing.rows = [] then [] else frameValueColumns existing
                  let new_data := fetch_missing_data ad fetch station_id
                    (gaps.map (fun g => (some g.1, some g.2))) all_variables models
                  if new_data.rows = [] then
                    .ok (tzConvertIfNonempty existing origTz, Frame.emptyF)
                  else
                    match combine_existing_and_new existing new_data origTz with
                    | .error m => .error m
                    | .ok combined => .ok (combined, new_data)

/-! MeteoDB (src/database/db.py) over the relational schema of
webhandler/database/models.py: stations(provider, external_id UNIQUE
together), variables(name UNIQUE), measurements(station_id, variable_id,
datetime, value) with UNIQUE(station_id, variable_id, datetime). -/

/-- One row of the measurements join that MeteoDB.query_data selects:
datetime (stored naive in UTC), value, station external id, variable name
and provider. -/
structure MeasRec where
  dt : Int
  value : Option Int
  sid : String
  varName : String
  provider : String
deriving DecidableEq, Repr

/-- Strict lexicographic order on the `(station_id, datetime)` pivot index. -/
def pivotKeyLt (a b : String × Int) : Bool :=
  if a.1 ≠ b.1 then decide (a.1 < b.1) else decide (a.2 < b.2)

/-- Insertion step for sorting pivot keys. -/
def insertPivotKey (k : String × Int) : List (String × Int) → List (String × Int)
  | [] => [k]
  | x :: xs => if pivotKeyLt k x then k :: x :: xs else x :: insertPivotKey k xs

/-- Sort the pivot index ascending, as `DataFrame.pivot` does. -/
def sortPivotKeys : List (String × Int) → List (String × Int)
  | [] => []
  | k :: rest => insertPivotKey k (sortPivotKeys rest)

/-- MeteoDB.query_data: select the measurement rows of the provider and
station inside the closed UTC range, optionally filter by variable names,
localize the stored datetimes to UTC and convert them to the timezone of
the request, then pivot with index `(station_id, datetime)` and one column
per selected variable, finally moving station_id back to a column. The
result has no model column. -/
def query_data (meas : List MeasRec) (provider station_id : String)
    (start_time end_time : DT) (variablesArg : Option (List String)) : Frame :=
  let sU := start_time.toAbs
  let eU := end_time.toAbs
  let sel0 := meas.filter (fun m =>
    m.provider = provider ∧ m.sid = station_id ∧ sU ≤ m.dt ∧ m.dt ≤ eU)
  let sel : List MeasRec := match variablesArg with
    | none => sel0
    | some vs => sel0.filter (fun m => m.varName ∈ vs)
  if sel = [] then Frame.emptyF
  else
    let z := start_time.tz.getD 0
    let cols := dedupKeepFirst (sel.map (fun m => m.varName))
    let keys := sortPivotKeys (dedupKeepFirst (sel.map (fun m => (m.sid, m.dt))))
    ⟨z, keys.map (fun k =>
      { dt := k.2, sid := k.1, model := none
        vals := cols.map (fun v =>
          (v, match sel.find? (fun m => m.sid = k.1 ∧ m.dt = k.2 ∧ m.varName = v) with
              | some m => m.value
              | none => none)) })⟩

/-- The state of the relational store: the three relations, with opaque
integer ids assigned on first insertion. -/
structure DBState where
  stations : List (String × String × Nat)
  variablesT : List (String × Nat)
  measurements : List (Nat × Nat × Int × Option Int)
deriving DecidableEq, Repr

/-- The empty store. -/
def DBState.emptyDB : DBState := ⟨[], [], []⟩

/-- Station lookup by (provider, external_id). -/
def findStation (db : DBState) (p sid : String) : Option Nat :=
  (db.stations.find? (fun t => t.1 = p ∧ t.2.1 = sid)).map (fun t => t.2.2)

/-- MeteoDB.insert_station: return the existing station id, or create the
station with a fresh id (station-info fetching carries no observable
content here and insertion succeeds). -/
def insert_station (db : DBState) (p sid : String) : DBState × Nat :=
  match findStation db p sid with
  | some i => (db, i)
  | none =>
    let i := db.stations.length + 1
    ({ db with stations := db.stations ++ [(p, sid, i)] }, i)

/-- Variable lookup by name. -/
def findVariable (db : DBState) (name : String) : Option Nat :=
  (db.variablesT.find? (fun t => t.1 = name)).map (fun t => t.2)

/-- MeteoDB.insert_variable: return the existing variable id, or create
the variable with a fresh id. -/
def insert_variable (db : DBState) (name : String) : DBState × Nat :=
  match findVariable db name with
  | some i => (db, i)
  | none =>
    let i := db.variablesT.length + 1
    ({ db with variablesT := db.variablesT ++ [(name, i)] }, i)

/-- Resolve every station external id of the frame, inserting missing ones,
and build the station id map of the bulk insert. -/
def resolveStations (db : DBState) (p : String) : List String → DBState × List (String × Nat)
  | [] => (db, [])
  | s :: rest =>
    let r1 := insert_station db p s
    let r2 := resolveStations r1.1 p rest
    (r2.1, (s, r1.2) :: r2.2)

/-- Resolve every variable column, inserting missing ones, and build the
variable id map of the bulk insert. -/
def resolveVariables (db : DBState) : List String → DBState × List (String × Nat)
  | [] => (db, [])
  | v :: rest =>
    let r1 := insert_variable db v
    let r2 := resolveVariables r1.1 rest
    (r2.1, (v, r1.2) :: r2.2)

/-- Lookup in an association map built by the resolution passes. -/
def alookup (m : List (String × Nat)) (k : String) : Option Nat :=
  (m.find? (fun e => e.1 = k)).map (fun e => e.2)

/-- Insertion step of the sorted distinct station ids (groupby sorts its
keys). -/
def insertStr (x : String) : List String → List String
  | [] => [x]
  | y :: ys => if decide (x < y) then x :: y :: ys else y :: insertStr x ys

/-- Sort a list of strings ascending. -/
def sortStrings : List String → List String
  | [] => []
  | x :: xs => insertStr x (sortStrings xs)

/-- The wide frame handed to MeteoDB.insert_data: the variable columns and
the rows `(datetime utc, station_id, cells aligned with the columns)`.
Datetimes are already normalized to UTC instants (the tz normalization of
insert_data keeps absolute instants). -/
structure InsertFrame where
  varCols : List String
  rows : List (Int × String × List (Option Int))
deriving DecidableEq, Repr

/-- Melt the wide frame to long form `(station_id, variable_id, datetime,
value)` through the two id maps. pandas melts variable-major; the order of
the long rows is not observable through the store, and the row-major order
is used here. -/
def meltRows (smap vmap : List (String × Nat)) (varCols : List String)
    (rows : List (Int × String × List (Option Int))) :
    List (Nat × Nat × Int × Option Int) :=
  rows.flatMap (fun r =>
    (varCols.zip r.2.2).filterMap (fun cv =>
      match alookup smap r.2.1, alookup vmap cv.1 with
      | some si, some vi => some (si, vi, r.1, cv.2)
      | _, _ => none))

/-- The UNIQUE(station_id, variable_id, datetime) key of a measurement row. -/
def measKey (m : Nat × Nat × Int × Option Int) : Nat × Nat × Int := (m.1, m.2.1, m.2.2.1)

/-- Whether the batch itself contains two rows with the same unique key. -/
def hasDupKeys : List (Nat × Nat × Int × Option Int) → Bool
  | [] => false
  | m :: rest => rest.any (fun x => measKey x = measKey m) || hasDupKeys rest

/-- MeteoDB.insert_data: register the referenced stations and variables
(these single-row inserts commit independently), melt the frame to long
form, and append the batch with `DataFrame.to_sql(if_exists="append")` —
a plain bulk INSERT in one transaction. When any row of the batch collides
with the UNIQUE(station_id, variable_id, datetime) constraint, against the
stored measurements or within the batch, the whole batch raises, is rolled
back, and the error is logged; insert_data returns normally either way.
NULL values are kept (the dropna on value is commented out in the
source). -/
def insert_data (db : DBState) (p : String) (f : InsertFrame) : DBState :=
  if f.rows = [] then db
  else if f.varCols = [] then db
  else
    let rs := resolveStations db p (sortStrings (dedupKeepFirst (f.rows.map (fun r => r.2.1))))
    let rv := resolveVariables rs.1 f.varCols
    let long := meltRows rs.2 rv.2 f.varCols f.rows
    if long = [] then rv.1
    else if long.any (fun m => rv.1.measurements.any (fun x => measKey x = measKey m))
        || hasDupKeys long then
      rv.1
    else { rv.1 with measurements := rv.1.measurements ++ long }

/-- The values a subsequent query observes for one (provider, station,
variable, instant) tuple: the join of MeteoDB.query_data restricted to that
tuple. -/
def query_values (db : DBState) (p sid vname : String) (t : Int) : List (Option Int) :=
  match findStation db p sid, findVariable db vname with
  | some si, some vi =>
    (db.measurements.filter (fun m => m.1 = si ∧ m.2.1 = vi ∧ m.2.2.1 = t)).map
      (fun m => m.2.2.2)
  | _, _ => []

/-! QueryWorkflow.run_timeseries_query (src/workflow.py), time-resolution
step. -/

/-- The static properties of a provider handler the workflow reads. -/
structure WorkflowAdapter where
  can_forecast : Bool
  forecast_window_minutes : Int
  latest_window_minutes : Int
deriving DecidableEq, Repr

/-- The window-resolution step of QueryWorkflow.run_timeseries_query
(after timezone localization, which keeps absolute instants): reject a
future start on a non-forecast provider, pick the window from
`can_forecast`, default a missing end to `start + window` for a forecast
provider whose start is in the future and to `now` otherwise, default a
missing start to `end - window`, and finally reject `start >= end`. -/
def resolve_window_times (h : WorkflowAdapter) (start_time end_time : Option Int)
    (now : Int) : Except String (Int × Int) :=
  let pastViolation := match start_time with
    | some s => (!h.can_forecast) && decide (s > now)
    | none => false
  if pastViolation then .error "Start time must be in the past for non-forecast providers"
  else
    let w := if h.can_forecast then h.forecast_window_minutes else h.latest_window_minutes
    let e := match end_time with
      | some e => e
      | none => match start_time with
        | some s => if h.can_forecast = true ∧ s > now then s + w else now
        | none => now
    let s := match start_time with
      | some s => s
      | none => e - w
    if s ≥ e then .error "start_time must be before end_time"
    else .ok (s, e)

/-! Concrete fixtures used by the closed theorems below. -/

/-- A provider call that succeeds with no data. -/
def fetchNone : FetchFn := fun _ _ _ _ => Except.ok none

/-- A provider call that raises. -/
def fetchBoom : FetchFn := fun _ _ _ _ => Except.error "Upstream timeout"

/-- A cache read that finds nothing. -/
def emptyQuery : QueryFn := fun _ _ => Frame.emptyF

/-- An hourly provider with the closed inclusion convention. -/
def hourAdapter : Adapter := ⟨"1h", Inclusive.both⟩

/-- One stored measurement row for station 01110MS of provider province. -/
def oneMeasurement : List MeasRec := [⟨0, some 1, "01110MS", "tair_2m", "province"⟩]

/-- A non-empty canonical frame of newly fetched data. -/
def oneNewFrame : Frame := ⟨0, [⟨60, "01110MS", some "", [("tair_2m", some 2)]⟩]⟩

/-- A one-row measurement frame, value 10. -/
def insertFrameA : InsertFrame := ⟨["tair_2m"], [(0, "103", [some 10])]⟩

/-- The same measurement tuple as `insertFrameA` with the newer value 20. -/
def insertFrameB : InsertFrame := ⟨["tair_2m"], [(0, "103", [some 20])]⟩

/-! General lemmas about the list helpers. -/

theorem mem_insertSorted {x a : Int} {l : List Int} :
    a ∈ insertSorted x l ↔ a = x ∨ a ∈ l := by
  induction l with
  | nil => simp [insertSorted]
  | cons y ys ih =>
    simp only [insertSorted]
    split
    · simp [List.mem_cons]
    · simp only [List.mem_cons, ih]
      tauto

theorem mem_sortInts {a : Int} {l : List Int} : a ∈ sortInts l ↔ a ∈ l := by
  induction l with
  | nil => simp [sortInts]
  | cons x xs ih => simp [sortInts, mem_insertSorted, ih]

theorem mem_dedupKeepFirst {α : Type} [DecidableEq α] {a : α} {l : List α} :
    a ∈ dedupKeepFirst l ↔ a ∈ l := by
  induction l with
  | nil => simp [dedupKeepFirst]
  | cons x xs ih =>
    by_cases hax : a = x
    · simp [dedupKeepFirst, hax]
    · simp [dedupKeepFirst, List.mem_filter, hax, ih]

theorem floorW_of_fmod_eq_zero {d w : Int} (h : w.fmod d = 0) : floorW d w = w := by
  have h2 := Int.fmod_add_fdiv w d
  rw [h, zero_add] at h2
  simpa [floorW] using h2

theorem gridLen_pos {s e d : Int} (hd : 0 < d) (hle : s ≤ e) : 0 < gridLen s e d := by
  unfold gridLen
  have h1 : 0 ≤ (e - s).fdiv d := Int.fdiv_nonneg (by omega) (le_of_lt hd)
  omega

theorem gridList_ne_nil {s e d : Int} (hd : 0 < d) (hle : s ≤ e) :
    gridList s e d ≠ [] := by
  have hlen : (gridList s e d).length = gridLen s e d := by
    unfold gridList
    rw [List.length_map]
    exact List.length_range _
  intro h
  rw [h] at hlen
  have := gridLen_pos hd hle
  simp only [List.length_nil] at hlen
  omega

/-- The outer checks of find_data_gaps succeed on aware bounds in a common
timezone with start at or before end, and the result is the try-block
value. -/
theorem find_data_gaps_of_aware {existingWall : List Int}
    {existingTz : Option Int} {s e : DT} {freq : String} {inc : Inclusive}
    {mgs : String} {tz : Option Int} {zs : Int}
    (hs : s.tz = some zs) (he : e.tz = some zs) (hle : s.toAbs ≤ e.toAbs) :
    find_data_gaps existingWall existingTz s e freq inc mgs tz =
      Except.ok (find_gaps_core existingWall existingTz s e freq inc mgs tz) := by
  have hnl : ¬ (e.toAbs < s.toAbs) := not_lt.mpr hle
  unfold find_data_gaps
  simp [hs, he, hnl]

/-! Claim C7: behaviour of the gap finder on an unparsable frequency. -/

/-- Nothing is missing from a list against itself. -/
theorem missingOf_self (l : List Int) : missingOf l l = [] := by
  apply List.filter_eq_nil_iff.mpr
  intro a ha
  simp only [decide_eq_true_eq, Decidable.not_not]
  exact mem_dedupKeepFirst.mpr (mem_sortInts.mpr ha)

/-- A list contributes no missing instants against itself. -/
theorem gaps_from_existing_self (l : List Int) (d mg : Int) :
    gaps_from_existing l l d mg = [] := by
  unfold gaps_from_existing
  rw [missingOf_self]
  simp

/-- Claim C7 counterexample: called with the unparsable frequency string
banana, the gap finder does not fail; it returns the full-range fallback
gap list. -/
theorem c7_counterexample :
    find_data_gaps [] none ⟨0, some 0⟩ ⟨60, some 0⟩ "banana" Inclusive.both
      "30min" none = Except.ok [(0, 60)] := by
  rw [find_data_gaps_of_aware rfl rfl (by decide)]
  rfl

/-- Claim C7 (amended): for every frequency string that cannot be parsed,
find_data_gaps with the default min-gap string returns the full-range
fallback `[(start, end)]` instead of raising a BadFrequency error, for all
aware bounds in a common timezone with start at or before end. -/
theorem c7_amended_bad_frequency_falls_back (existingWall : List Int)
    (existingTz : Option Int) (s e : DT) (zs : Int) (f : String)
    (inc : Inclusive) (tz : Option Int)
    (hs : s.tz = some zs) (he : e.tz = some zs) (hle : s.toAbs ≤ e.toAbs)
    (hf : parseFreq f = none) :
    find_data_gaps existingWall existingTz s e f inc "30min" tz =
      Except.ok [(s.toAbs, e.toAbs)] := by
  have h30 : parseFreq "30min" = some 30 := by decide
  rw [find_data_gaps_of_aware hs he hle]
  unfold find_gaps_core
  rw [h30, hf]

/-- Claim C7 witness for the amended theorem at a concrete input. -/
theorem c7_witness :
    find_data_gaps [] none ⟨0, some 0⟩ ⟨60, some 0⟩ "nonsense" Inclusive.left
      "30min" none = Except.ok [(0, 60)] :=
  c7_amended_bad_frequency_falls_back [] none ⟨0, some 0⟩ ⟨60, some 0⟩ 0
    "nonsense" Inclusive.left none rfl rfl (by decide) (by decide)

/-! Claim C8: a complete existing grid yields no gaps. -/

/-- Claim C8: for every parsable positive frequency and every aware,
grid-aligned range `[a, b]` with `a ≤ b` in a common timezone, calling the
gap finder with the existing instants equal to the complete canonical grid
of the range returns no gaps. -/
theorem c8_full_grid_yields_no_gaps (f : String) (d z ws we : Int)
    (hf : parseFreq f = some d) (hd : 0 < d)
    (hws : ws.fmod d = 0) (hwe : we.fmod d = 0) (hle : ws ≤ we) :
    find_data_gaps (gridList ws we d) (some z) ⟨ws, some z⟩ ⟨we, some z⟩ f
      Inclusive.both "30min" none = Except.ok [] := by
  have h30 : parseFreq "30min" = some 30 := by decide
  have hfs : floorW d ws = ws := floorW_of_fmod_eq_zero hws
  have hfe : floorW d we = we := floorW_of_fmod_eq_zero hwe
  have hgne : gridList ws we d ≠ [] := gridList_ne_nil hd hle
  have hd2 : ¬ (d ≤ 0) := by omega
  have hle2 : (⟨ws, some z⟩ : DT).toAbs ≤ (⟨we, some z⟩ : DT).toAbs := by
    simp only [DT.toAbs, Option.getD_some]
    omega
  rw [find_data_gaps_of_aware rfl rfl hle2]
  have hbd : build_daterange ⟨ws, some z⟩ ⟨we, some z⟩ d Inclusive.both =
      (gridList ws we d).map (fun w => w - z) := by
    simp [build_daterange, applyInclusive, hfs, hfe]
  have hmne : (gridList ws we d).map (fun w => w - z) ≠ [] := by
    simpa using hgne
  obtain ⟨c0, cs, hc⟩ := List.exists_cons_of_ne_nil hmne
  unfold find_gaps_core
  rw [h30, hf]
  simp only [hd2, if_false, hbd, hc]
  rw [if_neg hgne]
  rw [← hc]
  exact congrArg Except.ok (gaps_from_existing_self _ d 30)

/-- Claim C8 witness at a concrete input: frequency 10min, range
00:00..00:30 UTC, existing instants equal to the grid. -/
theorem c8_witness :
    find_data_gaps (gridList 0 30 10) (some 0) ⟨0, some 0⟩ ⟨30, some 0⟩ "10min"
      Inclusive.both "30min" none = Except.ok [] :=
  c8_full_grid_yields_no_gaps "10min" 10 0 0 30 (by decide) (by decide) (by decide)
    (by decide) (by decide)

/-! Claim C6: range validation of get_data. -/

/-- Claim C6 counterexample: for a timezone-aware pair with start equal to
end (here both 100 minutes UTC, with now at 200), _validate_query_times
does not raise, and get_data returns two empty frames instead of raising. -/
theorem c6_counterexample :
    validate_query_times ⟨100, some 0⟩ ⟨100, some 0⟩ 200 = Except.ok () ∧
    get_data emptyQuery hourAdapter fetchNone "s1" ⟨100, some 0⟩ ⟨100, some 0⟩
      200 none none = Except.ok (Frame.emptyF, Frame.emptyF) :=
  ⟨rfl, rfl⟩

/-- Rounding an empty-or-degenerate range never produces a non-empty one:
with equal bounds the rounded end is at most the rounded start. -/
theorem round_range_same (a d now : Int) :
    (round_range_to_freq a a d now).2 ≤ (round_range_to_freq a a d now).1 := by
  unfold round_range_to_freq
  dsimp only
  split <;> omega

/-- Claim C6 (amended): _validate_query_times raises exactly when start and
end are not both aware with the same timezone, or start is after end, or
start is in the future; for an aware pair with start equal to end the
validation passes and get_data instead returns two empty frames after
rounding. -/
theorem c6_amended_validation :
    (∀ (s e : DT) (now : Int),
      validate_query_times s e now = Except.ok () ↔
        ((∃ z : Int, s.tz = some z ∧ e.tz = some z) ∧
          s.toAbs ≤ e.toAbs ∧ s.toAbs ≤ now)) ∧
    (∀ (db : QueryFn) (ad : Adapter) (fetch : FetchFn) (sid : String)
        (w z now d : Int), parseFreq ad.freq = some d → 0 < d → w - z ≤ now →
      get_data db ad fetch sid ⟨w, some z⟩ ⟨w, some z⟩ now none none =
        Except.ok (Frame.emptyF, Frame.emptyF)) := by
  constructor
  · intro s e now
    unfold validate_query_times
    cases hs : s.tz with
    | none => simp
    | some zs =>
      cases he : e.tz with
      | none => simp
      | some ze =>
        by_cases hze : zs = ze
        · subst hze
          rw [if_neg (Option.some_ne_none zs), if_neg (Option.some_ne_none zs),
            if_neg (by simp : ¬ ((some zs : Option Int) ≠ some zs))]
          split_ifs with h1 h2
          · exact iff_of_false (by simp) (by rintro ⟨-, hc, -⟩; omega)
          · exact iff_of_false (by simp) (by rintro ⟨-, -, hc⟩; omega)
          · exact iff_of_true rfl ⟨⟨zs, rfl, rfl⟩, by omega, by omega⟩
        · rw [if_neg (Option.some_ne_none zs), if_neg (Option.some_ne_none ze),
            if_pos (by simpa using hze : (some zs : Option Int) ≠ some ze)]
          refine iff_of_false (by simp) ?_
          rintro ⟨⟨z, hz1, hz2⟩, -⟩
          injection hz1 with h1x
          injection hz2 with h2x
          exact hze (h1x.trans h2x.symm)
  · intro db ad fetch sid w z now d hf hd hle
    have hv : validate_query_times ⟨w, some z⟩ ⟨w, some z⟩ now = Except.ok () := by
      unfold validate_query_times
      rw [if_neg (Option.some_ne_none z), if_neg (Option.some_ne_none z),
        if_neg (by simp : ¬ ((some z : Option Int) ≠ some z)),
        if_neg (by simp [DT.toAbs]), if_neg (by simp [DT.toAbs]; omega)]
    have hd2 : ¬ (d ≤ 0) := by omega
    unfold get_data
    rw [hv, hf]
    dsimp only
    rw [if_neg hd2, if_pos (round_range_same (DT.toAbs ⟨w, some z⟩) d now)]
    simp

/-- Claim C6 witness for the amended theorem at concrete inputs. -/
theorem c6_witness :
    (validate_query_times ⟨100, some 0⟩ ⟨100, some 0⟩ 200 = Except.ok () ↔
      ((∃ z : Int, (some 0 : Option Int) = some z ∧ (some 0 : Option Int) = some z) ∧
        (100 - 0 : Int) ≤ 100 - 0 ∧ (100 - 0 : Int) ≤ 200)) ∧
    get_data emptyQuery hourAdapter fetchNone "s2" ⟨100, some 0⟩ ⟨100, some 0⟩
      200 none none = Except.ok (Frame.emptyF, Frame.emptyF) :=
  ⟨c6_amended_validation.1 ⟨100, some 0⟩ ⟨100, some 0⟩ 200,
   c6_amended_validation.2 emptyQuery hourAdapter fetchNone "s2" 100 0 200 60
     (by decide) (by decide) (by decide)⟩

/-! Claim C10: the variables filter is rejected before the pipeline runs. -/

/-- Claim C10: whenever the variables argument is not none, get_data
raises NotImplementedError; the result does not depend on the store or on
the provider — so no time validation, cache read, gap finding or upstream
fetch takes place and the store is untouched — and this holds even for
bounds that would fail validation. get_data itself never writes to the
store in any branch. -/
theorem c10_variables_filter_rejected_first (db1 db2 : QueryFn) (ad : Adapter)
    (fetch1 fetch2 : FetchFn) (sid : String) (s e : DT) (now : Int)
    (vs : List String) (models : Option (List String)) :
    get_data db1 ad fetch1 sid s e now (some vs) models =
      Except.error notImplementedVariablesMsg ∧
    get_data db1 ad fetch1 sid s e now (some vs) models =
      get_data db2 ad fetch2 sid s e now (some vs) models :=
  ⟨rfl, rfl⟩

/-! Claim C2: grid completeness of the combined frame. -/

/-- Claim C2 (code bug): the grid-completeness invariant fails twice over.
Every get_data call over the request 00:00..03:00 UTC at 1h reaches the
cache read and raises the weather_models TypeError, whatever the store and
the provider, so no successful call produces a combined frame over a
non-degenerate range at all. And the gap machinery itself contradicts the
invariant on single-instant gaps: with the cache holding 00:00, 02:00 and
03:00 UTC, the gap finder returns the single-instant gap (01:00, 01:00),
whose instant lies on the canonical grid, yet _fetch_missing_data skips
that gap (its `start_gap >= end_gap` guard), fetching nothing and
recording nothing for it, for every provider and known-variable list. -/
theorem c2_single_instant_gap_dropped :
    (∀ (db : QueryFn) (fetch : FetchFn),
      get_data db hourAdapter fetch "s1" ⟨0, some 0⟩ ⟨180, some 0⟩ 10000
        none none = Except.error typeErrorWeatherModels) ∧
    find_data_gaps [0, 120, 180] (some 0) ⟨0, some 0⟩ ⟨180, some 0⟩ "1h"
      Inclusive.both "30min" none = Except.ok [(60, 60)] ∧
    60 ∈ gridList 0 180 60 ∧
    (∀ (fetch : FetchFn) (vars : List String),
      fetch_missing_data hourAdapter fetch "s1" [(some 60, some 60)] vars none
        = Frame.emptyF) :=
  ⟨fun _ _ => rfl, rfl, by decide, fun _ _ => rfl⟩

/-! Claim C4: gap markers for empty fetch results. -/

/-- Claim C4 counterexample: with the empty known-variable list — the
value `[] if existing_data.empty else ...` that get_data computes for an
empty cached frame (query_manager.py line 230) — a gap fetch that returns
an empty result produces no placeholder rows at all: the pending frame
built by _fetch_missing_data is empty, although the canonical grid of the
gap is not. -/
theorem c4_counterexample :
    fetch_missing_data hourAdapter fetchNone "s1" [(some 0, some 60)] [] none
      = Frame.emptyF ∧
    gridList 0 60 60 ≠ [] :=
  ⟨rfl, by decide⟩

theorem insertByDt_perm (r : Row) (l : List Row) :
    (insertByDt r l).Perm (r :: l) := by
  induction l with
  | nil => simp [insertByDt]
  | cons x xs ih =>
    unfold insertByDt
    split
    · exact List.Perm.refl _
    · exact (List.Perm.cons x ih).trans (List.Perm.swap r x xs)

theorem sortRowsByDt_perm (l : List Row) : (sortRowsByDt l).Perm l := by
  induction l with
  | nil => simp [sortRowsByDt]
  | cons r rest ih =>
    unfold sortRowsByDt
    exact (insertByDt_perm r (sortRowsByDt rest)).trans (List.Perm.cons r ih)

/-- Claim C4 (amended): for a gap with gap_start before gap_end whose fetch
returns an empty result, and a non-empty known-variable list (the cache was
non-empty), the pending frame holds exactly the placeholder block: for each
requested model (or the empty-string model when none was requested), one
row per canonical-grid instant of the gap, with the station_id set and
every known variable NULL. With an empty known-variable list no rows are
emitted (see the counterexample). -/
theorem c4_amended_markers_when_variables_known (ad : Adapter) (d : Int)
    (fetch : FetchFn) (sid : String) (g1 g2 : Int) (vars : List String)
    (models : Option (List String))
    (hf : parseFreq ad.freq = some d) (hd : 0 < d) (hg : g1 < g2)
    (hfetch : ∀ a b c m, fetch a b c m = Except.ok none)
    (hvars : vars ≠ []) (hm : "model" ∉ vars) :
    (fetch_missing_data ad fetch sid [(some g1, some g2)] vars models).rows.Perm
      ((models.getD [""]).flatMap (fun m =>
        (gridList g1 g2 d).map (fun t =>
          ⟨t, sid, some m, vars.map (fun c => (c, none))⟩))) := by
  have hd2 : ¬ (d ≤ 0) := by omega
  have hgrid : gridList g1 g2 d ≠ [] := gridList_ne_nil hd (le_of_lt hg)
  have hflt : vars.filter (fun c => c ≠ "model") = vars := by
    apply List.filter_eq_self.mpr
    intro a ha
    simp only [ne_eq, decide_eq_true_eq]
    intro hc
    exact hm (hc ▸ ha)
  have htask : ∀ b1 b2 : Bool, create_fetch_task fetch ad.inclusive d sid g1 g2 b1 b2 models =
      (none, g1, g2) := by
    intro b1 b2
    unfold create_fetch_task
    dsimp only
    rw [hfetch]
  have hproc : process_task d sid vars models (none, g1, g2) =
      placeholderRows sid (gridList g1 g2 d) vars models := by
    unfold process_task
    simp [hvars, hgrid]
  have hph : placeholderRows sid (gridList g1 g2 d) vars models =
      (models.getD [""]).flatMap (fun m =>
        (gridList g1 g2 d).map (fun t =>
          ⟨t, sid, some m, vars.map (fun c => (c, none))⟩)) := by
    unfold placeholderRows
    simp only [if_neg hm, hflt]
  unfold fetch_missing_data
  rw [if_neg (show ¬ (([(some g1, some g2)] : List (Option Int × Option Int)) = [])
    by simp), hf]
  dsimp only
  rw [if_neg hd2]
  simp only [List.enum, List.enumFrom, List.filterMap, List.length_cons,
    List.length_nil]
  rw [if_neg (show ¬ (g1 ≥ g2) by omega)]
  simp only [htask, List.map_cons, List.map_nil, hproc, List.flatten,
    List.append_nil, hph]
  by_cases hb : ((models.getD [""]).flatMap (fun m =>
      (gridList g1 g2 d).map (fun t =>
        (⟨t, sid, some m, vars.map (fun c => (c, none))⟩ : Row)))) = []
  · rw [if_pos hb, hb]
    simp [Frame.emptyF]
  · rw [if_neg hb]
    exact sortRowsByDt_perm _

/-- Claim C4 witness for the amended theorem: one empty-fetched gap
00:00..01:00 at 1h with one known variable and no requested model yields
exactly the two NULL rows of the grid with the empty-string model. -/
theorem c4_witness :
    (fetch_missing_data hourAdapter fetchNone "s1" [(some 0, some 60)]
      ["tair_2m"] none).rows.Perm
      (((none : Option (List String)).getD [""]).flatMap (fun m =>
        (gridList 0 60 60).map (fun t =>
          ⟨t, "s1", some m, [("tair_2m", none)].map (fun c => c)⟩))) := by
  have h := c4_amended_markers_when_variables_known hourAdapter 60 fetchNone
    "s1" 0 60 ["tair_2m"] none (by decide) (by decide) (by decide)
    (fun _ _ _ _ => rfl) (by decide) (by decide)
  simpa using h

/-! Claim C5: a failed gap fetch. -/

/-- Claim C5 (code bug): both halves of the claim fail. The rows of the
failed gap are not omitted from the pending frame: _create_fetch_task
turns the raised task into an empty result, and _fetch_missing_data then
emits NULL placeholder rows for the failed gap whenever the known-variable
list is non-empty. And get_data does not return normally either: before
any fetch task exists it raises the weather_models TypeError at the cache
read, shown here at the request 00:00..01:00 UTC at 1h for every store and
every provider. -/
theorem c5_failed_gap_rows_recorded :
    (fetch_missing_data hourAdapter fetchBoom "s1" [(some 0, some 60)]
      ["tair_2m"] none).rows =
      [⟨0, "s1", some "", [("tair_2m", none)]⟩,
       ⟨60, "s1", some "", [("tair_2m", none)]⟩] ∧
    (∀ (db : QueryFn) (fetch : FetchFn),
      get_data db hourAdapter fetch "s1" ⟨0, some 0⟩ ⟨60, some 0⟩ 10000
        none none = Except.error typeErrorWeatherModels) :=
  ⟨rfl, fun _ _ => rfl⟩

/-! Claim C1: the combine step over the cached frame. -/

/-- Claim C1 (code bug): the cached frame produced by MeteoDB.query_data
never has a model column (its pivot keeps only station_id and the variable
columns), while _combine_existing_and_new indexes the cached frame by
(datetime, station_id, model); consequently, whenever the cached frame and
the new frame are both non-empty, the combine step raises a KeyError on
the model column instead of producing a combined frame — shown here at a
concrete one-row cache and one-row fetch. (The call would in fact already
fail at the cache read: get_data passes a weather_models keyword that
MeteoDB.query_data does not accept.) -/
theorem c1_cached_frame_breaks_combine :
    (∀ (meas : List MeasRec) (p sid : String) (s e : DT)
        (vs : Option (List String)),
      (query_data meas p sid s e vs).hasModelColumn = false) ∧
    (query_data oneMeasurement "province" "01110MS" ⟨0, some 0⟩ ⟨60, some 0⟩
      none).rows ≠ [] ∧
    oneNewFrame.rows ≠ [] ∧
    combine_existing_and_new
      (query_data oneMeasurement "province" "01110MS" ⟨0, some 0⟩ ⟨60, some 0⟩ none)
      oneNewFrame 0 = Except.error "KeyError: model" := by
  refine ⟨?_, by decide, by decide, by rfl⟩
  intro meas p sid s e vs
  unfold query_data
  cases vs with
  | none =>
    dsimp only
    split
    · rfl
    · simp only [Frame.hasModelColumn, List.any_eq_false, List.mem_map,
        forall_exists_index, and_imp, Prod.forall]
      intro x a b hmem hx
      rw [← hx]
      simp
  | some vlist =>
    dsimp only
    split
    · rfl
    · simp only [Frame.hasModelColumn, List.any_eq_false, List.mem_map,
        forall_exists_index, and_imp, Prod.forall]
      intro x a b hmem hx
      rw [← hx]
      simp

/-! Claim C9: implicit window resolution in the workflow. -/

/-- Claim C9 counterexample: a forecast provider with a missing start and a
past end (end 50, now 1000, forecast window 100, latest window 10)
resolves start to end minus the forecast window (-50), not to end minus
the latest window (40) as the claim states for the absent
forecast-with-future-start case. -/
theorem c9_counterexample :
    resolve_window_times ⟨true, 100, 10⟩ none (some 50) 1000 =
      Except.ok (-50, 50) ∧ ((-50 : Int) ≠ 50 - 10) :=
  ⟨rfl, by decide⟩

/-- Claim C9 (amended): the window is chosen from can_forecast alone. When
start is missing, start becomes end minus the forecast window whenever the
adapter can forecast (regardless of any future start) and end minus the
latest window otherwise; when end is missing, end becomes start plus the
window for a forecast provider with a future start, and now otherwise;
with both missing, end is now and start is now minus the window. -/
theorem c9_amended_window_resolution (h : WorkflowAdapter) (now : Int) :
    (∀ e : Int,
      0 < (if h.can_forecast then h.forecast_window_minutes else h.latest_window_minutes) →
      resolve_window_times h none (some e) now =
        Except.ok (e - (if h.can_forecast then h.forecast_window_minutes
          else h.latest_window_minutes), e)) ∧
    (∀ s : Int, h.can_forecast = true → s > now → 0 < h.forecast_window_minutes →
      resolve_window_times h (some s) none now =
        Except.ok (s, s + h.forecast_window_minutes)) ∧
    (∀ s : Int, s < now →
      resolve_window_times h (some s) none now = Except.ok (s, now)) ∧
    (0 < (if h.can_forecast then h.forecast_window_minutes else h.latest_window_minutes) →
      resolve_window_times h none none now =
        Except.ok (now - (if h.can_forecast then h.forecast_window_minutes
          else h.latest_window_minutes), now)) := by
  refine ⟨?_, ?_, ?_, ?_⟩
  · intro e hw
    unfold resolve_window_times
    dsimp only
    by_cases hcf : h.can_forecast = true
    · rw [if_pos hcf] at hw ⊢
      rw [if_neg (show ¬ (e - h.forecast_window_minutes ≥ e) by omega)]
      simp
    · rw [if_neg hcf] at hw ⊢
      rw [if_neg (show ¬ (e - h.latest_window_minutes ≥ e) by omega)]
      simp
  · intro s hcf hs hw
    unfold resolve_window_times
    rw [hcf]
    dsimp only
    rw [if_pos (show (true = true ∧ s > now) from ⟨rfl, hs⟩)]
    rw [if_pos (rfl : (true : Bool) = true)]
    rw [if_neg (show ¬ (s ≥ s + h.forecast_window_minutes) by omega)]
    simp
  · intro s hs
    unfold resolve_window_times
    dsimp only
    by_cases hcf : h.can_forecast = true
    · rw [hcf]
      rw [if_neg (show ¬ ((true : Bool) = true ∧ s > now) by rintro ⟨-, hsn⟩; omega)]
      rw [if_neg (show ¬ (s ≥ now) by omega)]
      simp
    · rw [Bool.not_eq_true] at hcf
      rw [hcf]
      rw [if_neg (show ¬ ((!false && decide (s > now)) = true) by
        simp only [Bool.not_false, Bool.true_and, decide_eq_true_eq]; omega)]
      rw [if_neg (show ¬ ((false : Bool) = true ∧ s > now) by simp)]
      rw [if_neg (show ¬ (s ≥ now) by omega)]
  · intro hw
    unfold resolve_window_times
    dsimp only
    by_cases hcf : h.can_forecast = true
    · rw [if_pos hcf] at hw ⊢
      rw [if_neg (show ¬ (now - h.forecast_window_minutes ≥ now) by omega)]
      simp
    · rw [if_neg hcf] at hw ⊢
      rw [if_neg (show ¬ (now - h.latest_window_minutes ≥ now) by omega)]
      simp

/-- Claim C9 witness: the amended start-missing rule applied at the
concrete counterexample input. -/
theorem c9_witness :
    resolve_window_times ⟨true, 100, 10⟩ none (some 50) 1000 =
      Except.ok (50 - 100, 50) :=
  (c9_amended_window_resolution ⟨true, 100, 10⟩ 1000).1 50 (by decide)


theorem find?_append_of_some {α : Type} (p : α → Bool) {l1 l2 : List α} {x : α}
    (h : l1.find? p = some x) : (l1 ++ l2).find? p = some x := by
  induction l1 with
  | nil => simp [List.find?] at h
  | cons a t ih =>
    rw [List.cons_append]
    rw [List.find?_cons] at h ⊢
    split at h
    · exact h
    · exact ih h

theorem find?_append_of_none {α : Type} (p : α → Bool) {l1 l2 : List α}
    (h : l1.find? p = none) : (l1 ++ l2).find? p = l2.find? p := by
  induction l1 with
  | nil => simp
  | cons a t ih =>
    rw [List.cons_append]
    rw [List.find?_cons] at h ⊢
    split at h
    · exact absurd h (by simp)
    · exact ih h

theorem insert_station_of_found {db : DBState} {p s : String} {i : Nat}
    (h : findStation db p s = some i) : insert_station db p s = (db, i) := by
  unfold insert_station
  rw [h]

theorem insert_variable_of_found {db : DBState} {v : String} {i : Nat}
    (h : findVariable db v = some i) : insert_variable db v = (db, i) := by
  unfold insert_variable
  rw [h]

theorem findStation_self_insert_station (db : DBState) (p s : String) :
    findStation (insert_station db p s).1 p s = some (insert_station db p s).2 := by
  unfold insert_station
  cases h : findStation db p s with
  | some i => exact h
  | none =>
    unfold findStation at h ⊢
    dsimp only
    rw [Option.map_eq_none'] at h
    rw [find?_append_of_none _ h]
    simp [List.find?]

theorem findVariable_self_insert_variable (db : DBState) (v : String) :
    findVariable (insert_variable db v).1 v = some (insert_variable db v).2 := by
  unfold insert_variable
  cases h : findVariable db v with
  | some i => exact h
  | none =>
    unfold findVariable at h ⊢
    dsimp only
    rw [Option.map_eq_none'] at h
    rw [find?_append_of_none _ h]
    simp [List.find?]

theorem findStation_mono_insert_station {db : DBState} {p2 q : String} {i : Nat}
    (p3 s : String) (h : findStation db p2 q = some i) :
    findStation (insert_station db p3 s).1 p2 q = some i := by
  unfold insert_station
  cases hf : findStation db p3 s with
  | some j => exact h
  | none =>
    unfold findStation at h ⊢
    dsimp only
    rw [Option.map_eq_some'] at h
    obtain ⟨t, ht, hmap⟩ := h
    rw [find?_append_of_some _ ht]
    simp [hmap]

theorem findVariable_mono_insert_variable {db : DBState} {q : String} {i : Nat}
    (v : String) (h : findVariable db q = some i) :
    findVariable (insert_variable db v).1 q = some i := by
  unfold insert_variable
  cases hf : findVariable db v with
  | some j => exact h
  | none =>
    unfold findVariable at h ⊢
    dsimp only
    rw [Option.map_eq_some'] at h
    obtain ⟨t, ht, hmap⟩ := h
    rw [find?_append_of_some _ ht]
    simp [hmap]

theorem insert_station_variablesT (db : DBState) (p s : String) :
    (insert_station db p s).1.variablesT = db.variablesT := by
  unfold insert_station
  cases h : findStation db p s <;> rfl

theorem insert_station_measurements (db : DBState) (p s : String) :
    (insert_station db p s).1.measurements = db.measurements := by
  unfold insert_station
  cases h : findStation db p s <;> rfl

theorem insert_variable_stations (db : DBState) (v : String) :
    (insert_variable db v).1.stations = db.stations := by
  unfold insert_variable
  cases h : findVariable db v <;> rfl

theorem insert_variable_measurements (db : DBState) (v : String) :
    (insert_variable db v).1.measurements = db.measurements := by
  unfold insert_variable
  cases h : findVariable db v <;> rfl


theorem resolveStations_variablesT (db : DBState) (p : String) (ss : List String) :
    (resolveStations db p ss).1.variablesT = db.variablesT := by
  induction ss generalizing db with
  | nil => rfl
  | cons s rest ih =>
    unfold resolveStations
    dsimp only
    rw [ih]
    exact insert_station_variablesT db p s

theorem resolveStations_measurements (db : DBState) (p : String) (ss : List String) :
    (resolveStations db p ss).1.measurements = db.measurements := by
  induction ss generalizing db with
  | nil => rfl
  | cons s rest ih =>
    unfold resolveStations
    dsimp only
    rw [ih]
    exact insert_station_measurements db p s

theorem resolveVariables_stations (db : DBState) (vs : List String) :
    (resolveVariables db vs).1.stations = db.stations := by
  induction vs generalizing db with
  | nil => rfl
  | cons v rest ih =>
    unfold resolveVariables
    dsimp only
    rw [ih]
    exact insert_variable_stations db v

theorem resolveVariables_measurements (db : DBState) (vs : List String) :
    (resolveVariables db vs).1.measurements = db.measurements := by
  induction vs generalizing db with
  | nil => rfl
  | cons v rest ih =>
    unfold resolveVariables
    dsimp only
    rw [ih]
    exact insert_variable_measurements db v

theorem findStation_mono_resolveStations {db : DBState} {p2 q : String} {i : Nat}
    (p : String) (ss : List String) (h : findStation db p2 q = some i) :
    findStation (resolveStations db p ss).1 p2 q = some i := by
  induction ss generalizing db with
  | nil => exact h
  | cons s rest ih =>
    unfold resolveStations
    dsimp only
    exact ih (findStation_mono_insert_station p s h)

theorem findVariable_mono_resolveVariables {db : DBState} {q : String} {i : Nat}
    (vs : List String) (h : findVariable db q = some i) :
    findVariable (resolveVariables db vs).1 q = some i := by
  induction vs generalizing db with
  | nil => exact h
  | cons v rest ih =>
    unfold resolveVariables
    dsimp only
    exact ih (findVariable_mono_insert_variable v h)

theorem resolveStations_snd_eq (db : DBState) (p : String) (ss : List String) :
    (resolveStations db p ss).2 = ss.map (fun s =>
      (s, (findStation (resolveStations db p ss).1 p s).getD 0)) := by
  induction ss generalizing db with
  | nil => rfl
  | cons s rest ih =>
    unfold resolveStations
    dsimp only
    rw [List.map_cons]
    have h1 : findStation (resolveStations (insert_station db p s).1 p rest).1 p s =
        some (insert_station db p s).2 :=
      findStation_mono_resolveStations p rest (findStation_self_insert_station db p s)
    rw [h1]
    rw [ih]
    rfl

theorem resolveVariables_snd_eq (db : DBState) (vs : List String) :
    (resolveVariables db vs).2 = vs.map (fun v =>
      (v, (findVariable (resolveVariables db vs).1 v).getD 0)) := by
  induction vs generalizing db with
  | nil => rfl
  | cons v rest ih =>
    unfold resolveVariables
    dsimp only
    rw [List.map_cons]
    have h1 : findVariable (resolveVariables (insert_variable db v).1 rest).1 v =
        some (insert_variable db v).2 :=
      findVariable_mono_resolveVariables rest (findVariable_self_insert_variable db v)
    rw [h1]
    rw [ih]
    rfl

theorem resolveStations_of_found {db : DBState} {p : String} {ss : List String}
    (h : ∀ s ∈ ss, (findStation db p s).isSome) :
    resolveStations db p ss = (db, ss.map (fun s => (s, (findStation db p s).getD 0))) := by
  induction ss with
  | nil => rfl
  | cons s rest ih =>
    have hs := h s (by simp)
    obtain ⟨i, hi⟩ := Option.isSome_iff_exists.mp hs
    unfold resolveStations
    rw [insert_station_of_found hi]
    dsimp only
    rw [ih (fun q hq => h q (by simp [hq]))]
    rw [List.map_cons, hi]
    rfl

theorem resolveVariables_of_found {db : DBState} {vs : List String}
    (h : ∀ v ∈ vs, (findVariable db v).isSome) :
    resolveVariables db vs = (db, vs.map (fun v => (v, (findVariable db v).getD 0))) := by
  induction vs with
  | nil => rfl
  | cons v rest ih =>
    have hs := h v (by simp)
    obtain ⟨i, hi⟩ := Option.isSome_iff_exists.mp hs
    unfold resolveVariables
    rw [insert_variable_of_found hi]
    dsimp only
    rw [ih (fun q hq => h q (by simp [hq]))]
    rw [List.map_cons, hi]
    rfl

theorem findStation_after_resolveStations (db : DBState) (p : String)
    (ss : List String) {s : String} (hs : s ∈ ss) :
    (findStation (resolveStations db p ss).1 p s).isSome := by
  induction ss generalizing db with
  | nil => cases hs
  | cons a rest ih =>
    unfold resolveStations
    dsimp only
    rcases List.mem_cons.mp hs with rfl | hmem
    · rw [findStation_mono_resolveStations p rest
        (findStation_self_insert_station db p s)]
      rfl
    · exact ih _ hmem

theorem findVariable_after_resolveVariables (db : DBState)
    (vs : List String) {v : String} (hv : v ∈ vs) :
    (findVariable (resolveVariables db vs).1 v).isSome := by
  induction vs generalizing db with
  | nil => cases hv
  | cons a rest ih =>
    unfold resolveVariables
    dsimp only
    rcases List.mem_cons.mp hv with rfl | hmem
    · rw [findVariable_mono_resolveVariables rest
        (findVariable_self_insert_variable db v)]
      rfl
    · exact ih _ hmem


theorem resolveStations_again (db db2 : DBState) (p : String) (ss : List String)
    (hst : db2.stations = (resolveStations db p ss).1.stations) :
    resolveStations db2 p ss = (db2, (resolveStations db p ss).2) := by
  have hfound : ∀ s ∈ ss, (findStation db2 p s).isSome := by
    intro s hs
    have h0 := findStation_after_resolveStations db p ss hs
    unfold findStation at h0 ⊢
    rw [hst]
    exact h0
  rw [resolveStations_of_found hfound]
  rw [resolveStations_snd_eq db p ss]
  congr 1
  apply List.map_congr_left
  intro s hs
  have : findStation db2 p s = findStation (resolveStations db p ss).1 p s := by
    unfold findStation
    rw [hst]
  rw [this]

theorem resolveVariables_again (db db2 : DBState) (vs : List String)
    (hvt : db2.variablesT = (resolveVariables db vs).1.variablesT) :
    resolveVariables db2 vs = (db2, (resolveVariables db vs).2) := by
  have hfound : ∀ v ∈ vs, (findVariable db2 v).isSome := by
    intro v hv
    have h0 := findVariable_after_resolveVariables db vs hv
    unfold findVariable at h0 ⊢
    rw [hvt]
    exact h0
  rw [resolveVariables_of_found hfound]
  rw [resolveVariables_snd_eq db vs]
  congr 1
  apply List.map_congr_left
  intro v hv
  have : findVariable db2 v = findVariable (resolveVariables db vs).1 v := by
    unfold findVariable
    rw [hvt]
  rw [this]

theorem insert_data_eq (db : DBState) (p : String) (f : InsertFrame)
    (hr : f.rows ≠ []) (hv : f.varCols ≠ [])
    (RS RV : DBState × List (String × Nat))
    (L : List (Nat × Nat × Int × Option Int))
    (hRS : resolveStations db p
      (sortStrings (dedupKeepFirst (f.rows.map (fun r => r.2.1)))) = RS)
    (hRV : resolveVariables RS.1 f.varCols = RV)
    (hL : meltRows RS.2 RV.2 f.varCols f.rows = L) :
    insert_data db p f =
      if L = [] then RV.1
      else if L.any (fun m => RV.1.measurements.any (fun x => measKey x = measKey m))
          || hasDupKeys L then RV.1
      else { RV.1 with measurements := RV.1.measurements ++ L } := by
  unfold insert_data
  rw [if_neg hr, if_neg hv]
  dsimp only
  rw [hRS, hRV, hL]


theorem any_key_self_append (X L : List (Nat × Nat × Int × Option Int))
    (hL : L ≠ []) :
    (L.any (fun m => (X ++ L).any (fun x => measKey x = measKey m))) = true := by
  obtain ⟨m, t, rfl⟩ := List.exists_cons_of_ne_nil hL
  apply List.any_eq_true.mpr
  refine ⟨m, by simp, ?_⟩
  apply List.any_eq_true.mpr
  exact ⟨m, by simp, by simp⟩

theorem insert_data_idem (db : DBState) (p : String) (f : InsertFrame) :
    insert_data (insert_data db p f) p f = insert_data db p f := by
  by_cases hr : f.rows = []
  · have h1 : insert_data db p f = db := by
      unfold insert_data
      rw [if_pos hr]
    rw [h1]
    exact h1
  by_cases hv : f.varCols = []
  · have h1 : insert_data db p f = db := by
      unfold insert_data
      rw [if_neg hr, if_pos hv]
    rw [h1]
    exact h1
  obtain ⟨RS, hRS⟩ : ∃ x, resolveStations db p
      (sortStrings (dedupKeepFirst (f.rows.map (fun r => r.2.1)))) = x := ⟨_, rfl⟩
  obtain ⟨RV, hRV⟩ : ∃ x, resolveVariables RS.1 f.varCols = x := ⟨_, rfl⟩
  obtain ⟨L, hL⟩ : ∃ x, meltRows RS.2 RV.2 f.varCols f.rows = x := ⟨_, rfl⟩
  have h1 := insert_data_eq db p f hr hv RS RV L hRS hRV hL
  have hRVst : RV.1.stations = RS.1.stations := by
    rw [← hRV]
    exact resolveVariables_stations RS.1 f.varCols
  have hD1s : (insert_data db p f).stations = RS.1.stations := by
    rw [h1]
    split
    · exact hRVst
    · split
      · exact hRVst
      · exact hRVst
  have hD1v : (insert_data db p f).variablesT = RV.1.variablesT := by
    rw [h1]
    split
    · rfl
    · split
      · rfl
      · rfl
  have h2 : resolveStations (insert_data db p f) p
      (sortStrings (dedupKeepFirst (f.rows.map (fun r => r.2.1)))) =
      (insert_data db p f, RS.2) := by
    have hst : (insert_data db p f).stations =
        (resolveStations db p
          (sortStrings (dedupKeepFirst (f.rows.map (fun r => r.2.1))))).1.stations := by
      rw [hRS]
      exact hD1s
    have hh := resolveStations_again db (insert_data db p f) p
      (sortStrings (dedupKeepFirst (f.rows.map (fun r => r.2.1)))) hst
    rw [hRS] at hh
    exact hh
  have h3 : resolveVariables (insert_data db p f) f.varCols =
      (insert_data db p f, RV.2) := by
    have hvt : (insert_data db p f).variablesT =
        (resolveVariables RS.1 f.varCols).1.variablesT := by
      rw [hRV]
      exact hD1v
    have hh := resolveVariables_again RS.1 (insert_data db p f) f.varCols hvt
    rw [hRV] at hh
    exact hh
  have h4 := insert_data_eq (insert_data db p f) p f hr hv
    (insert_data db p f, RS.2) (insert_data db p f, RV.2) L h2 h3 hL
  rw [h4]
  by_cases hL0 : L = []
  · rw [if_pos hL0]
  · rw [if_neg hL0]
    by_cases hC1 : (L.any (fun m => RV.1.measurements.any
        (fun x => measKey x = measKey m)) || hasDupKeys L) = true
    · have hD1m : (insert_data db p f).measurements = RV.1.measurements := by
        rw [h1, if_neg hL0, if_pos hC1]
      rw [if_pos ?hcon]
      case hcon =>
        dsimp only
        rw [hD1m]
        exact hC1
    · have hD1m : (insert_data db p f).measurements =
          RV.1.measurements ++ L := by
        rw [h1, if_neg hL0, if_neg hC1]
      rw [if_pos ?hcon2]
      case hcon2 =>
        dsimp only
        rw [hD1m]
        rw [any_key_self_append RV.1.measurements L hL0]
        rfl


theorem insert_data_reinsert_keeps_original (db : DBState) (p sid col : String)
    (dt : Int) (v1 v2 : Option Int) :
    insert_data (insert_data db p ⟨[col], [(dt, sid, [v1])]⟩) p
        ⟨[col], [(dt, sid, [v2])]⟩ =
      insert_data db p ⟨[col], [(dt, sid, [v1])]⟩ := by
  have hr : ([(dt, sid, [v1])] : List (Int × String × List (Option Int))) ≠ [] := by simp
  have hr2 : ([(dt, sid, [v2])] : List (Int × String × List (Option Int))) ≠ [] := by simp
  have hv : ([col] : List String) ≠ [] := by simp
  obtain ⟨RS, hRS⟩ : ∃ x, resolveStations db p
      (sortStrings (dedupKeepFirst ([(dt, sid, [v1])].map
        (fun r => r.2.1)))) = x := ⟨_, rfl⟩
  obtain ⟨RV, hRV⟩ : ∃ x, resolveVariables RS.1 [col] = x := ⟨_, rfl⟩
  have hSS : sortStrings (dedupKeepFirst (([(dt, sid, [v1])] :
      List (Int × String × List (Option Int))).map (fun r => r.2.1))) = [sid] := by
    simp [dedupKeepFirst, sortStrings, insertStr]
  have hSS2 : sortStrings (dedupKeepFirst (([(dt, sid, [v2])] :
      List (Int × String × List (Option Int))).map (fun r => r.2.1))) = [sid] := by
    simp [dedupKeepFirst, sortStrings, insertStr]
  obtain ⟨iS, hiS⟩ : ∃ i, RS.2 = [(sid, i)] := by
    refine ⟨(findStation RS.1 p sid).getD 0, ?_⟩
    rw [← hRS]
    rw [hSS] at hRS ⊢
    rw [resolveStations_snd_eq db p [sid], List.map_cons, List.map_nil, hRS]
  obtain ⟨iV, hiV⟩ : ∃ i, RV.2 = [(col, i)] := by
    refine ⟨(findVariable RV.1 col).getD 0, ?_⟩
    rw [← hRV]
    rw [resolveVariables_snd_eq RS.1 [col], List.map_cons, List.map_nil, hRV]
  have hmelt : ∀ (v : Option Int), meltRows RS.2 RV.2 [col] [(dt, sid, [v])] =
      [(iS, iV, dt, v)] := by
    intro v
    rw [hiS, hiV]
    simp [meltRows, alookup, List.find?, List.zip]
  have h1 := insert_data_eq db p ⟨[col], [(dt, sid, [v1])]⟩ hr hv RS RV
    [(iS, iV, dt, v1)] hRS hRV (hmelt v1)
  have hRVst : RV.1.stations = RS.1.stations := by
    rw [← hRV]
    exact resolveVariables_stations RS.1 [col]
  have hD1s : (insert_data db p ⟨[col], [(dt, sid, [v1])]⟩).stations =
      RS.1.stations := by
    rw [h1]
    split
    · exact hRVst
    · split
      · exact hRVst
      · exact hRVst
  have hD1v : (insert_data db p ⟨[col], [(dt, sid, [v1])]⟩).variablesT =
      RV.1.variablesT := by
    rw [h1]
    split
    · rfl
    · split
      · rfl
      · rfl
  have h2 : resolveStations (insert_data db p ⟨[col], [(dt, sid, [v1])]⟩) p
      (sortStrings (dedupKeepFirst (([(dt, sid, [v2])] :
        List (Int × String × List (Option Int))).map (fun r => r.2.1)))) =
      (insert_data db p ⟨[col], [(dt, sid, [v1])]⟩, RS.2) := by
    rw [hSS2]
    rw [hSS] at hRS
    have hst : (insert_data db p ⟨[col], [(dt, sid, [v1])]⟩).stations =
        (resolveStations db p [sid]).1.stations := by
      rw [hRS]
      exact hD1s
    have hh := resolveStations_again db
      (insert_data db p ⟨[col], [(dt, sid, [v1])]⟩) p [sid] hst
    rw [hRS] at hh
    exact hh
  have h3 : resolveVariables (insert_data db p ⟨[col], [(dt, sid, [v1])]⟩) [col] =
      (insert_data db p ⟨[col], [(dt, sid, [v1])]⟩, RV.2) := by
    have hvt : (insert_data db p ⟨[col], [(dt, sid, [v1])]⟩).variablesT =
        (resolveVariables RS.1 [col]).1.variablesT := by
      rw [hRV]
      exact hD1v
    have hh := resolveVariables_again RS.1
      (insert_data db p ⟨[col], [(dt, sid, [v1])]⟩) [col] hvt
    rw [hRV] at hh
    exact hh
  have h4 := insert_data_eq (insert_data db p ⟨[col], [(dt, sid, [v1])]⟩) p
    ⟨[col], [(dt, sid, [v2])]⟩ hr2 hv
    (insert_data db p ⟨[col], [(dt, sid, [v1])]⟩, RS.2)
    (insert_data db p ⟨[col], [(dt, sid, [v1])]⟩, RV.2)
    [(iS, iV, dt, v2)] h2 h3 (hmelt v2)
  rw [h4]
  rw [if_neg (by simp : ¬ ([((iS : Nat), (iV : Nat), (dt : Int), v2)] = []))]
  by_cases hC1 : (([(iS, iV, dt, v1)].any (fun m => RV.1.measurements.any
      (fun x => measKey x = measKey m)) || hasDupKeys [(iS, iV, dt, v1)])) = true
  · have hD1m : (insert_data db p ⟨[col], [(dt, sid, [v1])]⟩).measurements =
        RV.1.measurements := by
      rw [h1, if_neg (by simp), if_pos hC1]
    rw [if_pos ?hcon]
    case hcon =>
      dsimp only
      rw [hD1m]
      simp only [List.any_cons, List.any_nil, Bool.or_false, hasDupKeys] at hC1 ⊢
      simpa [measKey] using hC1
  · have hD1m : (insert_data db p ⟨[col], [(dt, sid, [v1])]⟩).measurements =
        RV.1.measurements ++ [(iS, iV, dt, v1)] := by
      rw [h1, if_neg (by simp), if_neg hC1]
    rw [if_pos ?hcon2]
    case hcon2 =>
      dsimp only
      rw [hD1m]
      simp [measKey]


/-! Claim C3: semantics of re-inserting measurements. -/

/-- Claim C3 counterexample: inserting the tuple (station 103, tair_2m,
instant 0) with value 10 and then re-inserting it with the newer value 20
leaves value 10 visible to a subsequent query: the re-insert batch is
rejected by the UNIQUE constraint, so the newer value does not win. -/
theorem c3_counterexample :
    query_values (insert_data (insert_data DBState.emptyDB "sbr" insertFrameA)
      "sbr" insertFrameB) "sbr" "103" "tair_2m" 0 = [some 10] ∧
    (some 10 : Option Int) ≠ some 20 :=
  ⟨rfl, by decide⟩

/-- Claim C3 (amended): insert_data is append-only behind the UNIQUE
(station_id, variable_id, datetime) constraint (the schema has no model
column). Re-inserting the same frame is observably a no-op — the whole
duplicate batch fails atomically, so no duplicate rows appear and
inserting twice equals inserting once, on the entire store state. But when
a re-inserted tuple carries a different value, the batch is rejected the
same way and the original value, not the newer one, remains what a
subsequent query returns. -/
theorem c3_amended_idempotent_but_original_value_wins :
    (∀ (db : DBState) (p : String) (f : InsertFrame),
      insert_data (insert_data db p f) p f = insert_data db p f) ∧
    (∀ (db : DBState) (p sid col : String) (dt : Int) (v1 v2 : Option Int),
      insert_data (insert_data db p ⟨[col], [(dt, sid, [v1])]⟩) p
          ⟨[col], [(dt, sid, [v2])]⟩ =
        insert_data db p ⟨[col], [(dt, sid, [v1])]⟩) :=
  ⟨insert_data_idem, insert_data_reinsert_keeps_original⟩

end MeteoService
